import Mathlib

/-!
Verification of the recovery console's session state machine
(`src/recovery.c`) against its natural-language specification.

The embedding below translates the C source into pure Lean functions:
the bootloader control block becomes a record of strings (each field is
the C-string content of the corresponding fixed-size buffer), `strlcpy`
and `strlcat` are modelled with an explicit capacity parameter (the
buffer sizes live in `bootloader.h`, which is not part of this
repository, so capacities are parameters of the embedding), file I/O
becomes explicit state passing, and the interactive menu loop becomes a
step function folded over a list of key events.
-/

namespace Recovery

/-- The bootloader control block (`struct bootloader_message`): three
fixed-capacity byte buffers, modelled by their C-string content. -/
structure BootMessage where
  command : String
  status : String
  recovery : String
deriving DecidableEq, Repr

/-- The all-zero control block written by `finish_recovery`
(`memset(&boot, 0, sizeof(boot))`, src/recovery.c:257). -/
def zeroBoot : BootMessage := ⟨"", "", ""⟩

/-- `static const int MAX_ARGS = 100` (src/recovery.c:117). -/
def MAX_ARGS : Nat := 100

/-- `strlcpy(dst, src, cap)`: copies at most `cap - 1` characters of
`src` and terminates. Modelled on C-string contents. -/
def strlcpy (src : String) (cap : Nat) : String :=
  ⟨src.data.take (cap - 1)⟩

/-- `strlcat(dst, src, cap)`: appends `src` to `dst`, keeping the total
length at most `cap - 1`; if `dst` already fills the buffer nothing is
appended. Modelled on C-string contents. -/
def strlcat (dst src : String) (cap : Nat) : String :=
  ⟨dst.data ++ src.data.take (cap - 1 - dst.data.length)⟩

/-- Split a character list at `'\n'` separators (keeping empty pieces). -/
def splitNL : List Char → List (List Char)
  | [] => [[]]
  | c :: cs =>
    match splitNL cs with
    | [] => [[]]
    | t :: ts => if c = '\n' then [] :: t :: ts else (c :: t) :: ts

/-- The token sequence produced by repeated `strtok(-, "\n")` on a
buffer: maximal runs of non-newline characters, in order; runs of
consecutive newlines (and leading/trailing newlines) yield no token. -/
def splitTok (s : String) : List String :=
  ((splitNL s.data).filter (fun t => !t.isEmpty)).map (fun t => (⟨t⟩ : String))

/-- The first line of a string: everything before the first `'\n'`. -/
def firstLine (s : String) : String :=
  ⟨s.data.takeWhile (fun c => c != '\n')⟩

/-- The C sentinel check `buf[0] != 0 && buf[0] != 255` used before
printing a control-block field (src/recovery.c:161,165,181). -/
def fieldPresent (s : String) : Bool :=
  match s.data with
  | [] => false
  | c :: _ => !(c = Char.ofNat 0) && !(c = Char.ofNat 255)

/-- Log lines emitted by `get_args` (LOGI/LOGE calls). -/
inductive LogMsg
  | bootCommand (s : String)
  | bootStatus (s : String)
  | gotArgsFromBoot
  | badBootMessage (s : String)
  | gotArgsFromCommandFile
deriving DecidableEq, Repr

/-- Input state of `get_args`: the process argument list after the
program name (`argv[1..]`; `*argc <= 1` corresponds to `[]`), the
control block returned by `get_bootloader_message`, and the contents of
`CACHE:recovery/command` as newline-stripped lines (`none` when the
file cannot be opened). -/
structure GetArgsInput where
  cliArgs : List String
  boot : BootMessage
  commandFile : Option (List String)
deriving DecidableEq, Repr

/-- Result of `get_args`: the resolved argument list (`argv[1..]` after
the call), whether the control block's `recovery` field supplied the
arguments (tier 2 accepted the marker), whether the command file was
opened and read (tier 3), the control block passed to
`set_bootloader_message` at the end, and the log lines, in order. -/
structure GetArgsOutput where
  args : List String
  fromBcb : Bool
  readCmdFile : Bool
  written : BootMessage
  logs : List LogMsg
deriving DecidableEq, Repr

/-- Tier 2 of `get_args` (src/recovery.c:170-184): tokenize the
`recovery` field with `strtok(-, "\n")`; if the first token is exactly
`"recovery"`, the remaining tokens (at most `MAX_ARGS - 1`, since
`*argc` counts from 1 up to `MAX_ARGS`) are the arguments. -/
def bcbArgs (recovery : String) : Option (List String) :=
  match splitTok recovery with
  | t :: rest => if t = "recovery" then some (rest.take (MAX_ARGS - 1)) else none
  | [] => none

/-- The control block written back at the end of `get_args`
(src/recovery.c:205-214): `strlcpy(boot.command, "boot-recovery", ..)`,
`strlcpy(boot.recovery, "recovery\n", ..)`, then for each resolved
argument `strlcat` of the argument and of `"\n"`. The `status` field is
left as read. -/
def rewriteBoot (boot : BootMessage) (args : List String) (cmdCap recCap : Nat) : BootMessage :=
  { command := strlcpy "boot-recovery" cmdCap
    status := boot.status
    recovery := args.foldl (fun r a => strlcat (strlcat r a recCap) "\n" recCap)
      (strlcpy "recovery\n" recCap) }

/-- The Argument Resolver `get_args` (src/recovery.c:155-215).
`cmdCap`/`recCap` are the capacities of the `command` and `recovery`
buffers (declared in `bootloader.h`, outside this repository). Tier 1:
the real command line wins when non-trivial. Tier 2: the control
block's `recovery` field, when the process arguments are trivial and
the first token is the marker; a non-empty non-matching field is logged
as a bad boot message (LOGE prints at most 20 characters). Tier 3: the
command file, consulted whenever the argument count is still `<= 1`.
Finally the resolved arguments are always written back into the control
block; the result of `set_bootloader_message` is discarded by the
source. -/
def get_args (cmdCap recCap : Nat) (inp : GetArgsInput) : GetArgsOutput :=
  let logs0 :=
    (if fieldPresent inp.boot.command then [LogMsg.bootCommand inp.boot.command] else []) ++
    (if fieldPresent inp.boot.status then [LogMsg.bootStatus inp.boot.status] else [])
  let t2 : List String × Bool × List LogMsg :=
    if inp.cliArgs ≠ [] then (inp.cliArgs, false, [])
    else
      match bcbArgs inp.boot.recovery with
      | some as => (as, true, [LogMsg.gotArgsFromBoot])
      | none =>
        (([] : List String), false,
          if fieldPresent inp.boot.recovery then
            [LogMsg.badBootMessage ⟨inp.boot.recovery.data.take 20⟩] else [])
  let t3 : List String × Bool × List LogMsg :=
    if t2.1 = [] then
      match inp.commandFile with
      | some lines => (lines.take (MAX_ARGS - 1), true, [LogMsg.gotArgsFromCommandFile])
      | none => (t2.1, false, [])
    else (t2.1, false, [])
  { args := t3.1
    fromBcb := t2.2.1
    readCmdFile := t3.2.1
    written := rewriteBoot inp.boot t3.1 cmdCap recCap
    logs := logs0 ++ t2.2.2 ++ t3.2.2 }

/-- The source calls `set_bootloader_message(&boot)` as the last
statement of `get_args` (src/recovery.c:214) and discards its return
value; no branch of `get_args` inspects whether the persist succeeded.
`setOk` records the collaborator's result, which the translated code
ignores exactly as the source does. -/
def get_args_withSetResult (cmdCap recCap : Nat) (inp : GetArgsInput) (_setOk : Bool) :
    GetArgsOutput :=
  get_args cmdCap recCap inp

/-- State touched by the Session Finalizer `finish_recovery`
(src/recovery.c:222-269), on the nominal path where the collaborating
file operations succeed: the intent file, the volatile session log
`/tmp/recovery.log` (as lines), the `static long tmplog_offset` cursor
into it (line-granular, since the copy loop always reads to the end of
the file and `ftell` then sits on a line boundary), the durable log
`CACHE:recovery/log`, the control block, and the command file. -/
structure FinishState where
  intentFile : Option String
  tmplog : List String
  tmplogOffset : Nat
  durableLog : List String
  boot : BootMessage
  commandFile : Option (List String)
deriving DecidableEq, Repr

/-- The Session Finalizer `finish_recovery(send_intent)`
(src/recovery.c:222-269): optionally write the intent file, append the
volatile log's bytes past `tmplog_offset` to the durable log and
advance the offset to the end, overwrite the control block with the
all-zero record, and delete the command file. -/
def finish_recovery (sendIntent : Option String) (s : FinishState) : FinishState :=
  let s1 :=
    match sendIntent with
    | some t => { s with intentFile := some t }
    | none => s
  { s1 with
    durableLog := s1.durableLog ++ s1.tmplog.drop s1.tmplogOffset
    tmplogOffset := s1.tmplog.length
    boot := zeroBoot
    commandFile := none }

/-- The resolved operation request built by the `getopt_long` loop in
`main` (src/recovery.c:1362-1378). -/
structure OperationRequest where
  sendIntent : Option String
  updatePackage : Option String
  wipeData : Bool
  wipeCache : Bool
deriving DecidableEq, Repr

/-- Initial values before option parsing (src/recovery.c:1362-1364). -/
def initRequest : OperationRequest := ⟨none, none, false, false⟩

/-- One step of the option loop (src/recovery.c:1367-1378), for the
long options of the `OPTIONS` table in their `--name` / `--name=value`
forms: `--wipe_data` sets both wipe flags (`wipe_data = wipe_cache =
1`), `--wipe_cache` sets only the cache flag, `--send_intent=` and
`--update_package=` capture their argument; anything else is the `'?'`
case, logged and ignored. -/
def applyOpt (r : OperationRequest) (a : String) : OperationRequest :=
  if a = "--wipe_data" then { r with wipeData := true, wipeCache := true }
  else if a = "--wipe_cache" then { r with wipeCache := true }
  else if ("--send_intent=").data.isPrefixOf a.data then
    { r with sendIntent := some ⟨a.data.drop 14⟩ }
  else if ("--update_package=").data.isPrefixOf a.data then
    { r with updatePackage := some ⟨a.data.drop 17⟩ }
  else r

/-- The whole `getopt_long` loop over the resolved arguments. -/
def parseOptions (args : List String) : OperationRequest :=
  args.foldl applyOpt initRequest

/-- `INSTALL_SUCCESS` from `install.h`. `install.h` is not part of this
repository; the dispatcher only ever compares its status against
`INSTALL_SUCCESS`, so success is modelled as 0 and error as a distinct
code. -/
def INSTALL_SUCCESS : Int := 0

/-- `INSTALL_ERROR` from `install.h` (see `INSTALL_SUCCESS`). -/
def INSTALL_ERROR : Int := 1

/-- Modelled from the spec: the spec's `SessionOutcome` enum (§3). The
code keeps an `int status`; a status other than `INSTALL_SUCCESS` is
the spec's `InstallError` outcome (it drives the error icon and the
interactive fallback, src/recovery.c:1411-1412). -/
inductive SessionOutcome
  | success
  | installError
  | userAborted
deriving DecidableEq, Repr

/-- Modelled from the spec: map the code's `int status` to the spec's
`SessionOutcome`. -/
def sessionOutcome (status : Int) : SessionOutcome :=
  if status = INSTALL_SUCCESS then SessionOutcome.success else SessionOutcome.installError

/-- Results of the dispatcher's collaborators: `install_package` per
package path, and `erase_root` on `"DATA:"` and `"CACHE:"` (nonzero
means failure, as in C truth value tests). -/
structure DispatchEnv where
  install : String → Int
  eraseData : Int
  eraseCache : Int

/-- Destructive collaborator calls made by the unattended pass. -/
inductive DAction
  | installPkg (p : String)
  | eraseData
  | eraseCache
deriving DecidableEq, Repr

/-- The unattended dispatch policy of `main` (src/recovery.c:1398-1409):
install the update package if one was requested (no wipe is attempted
in that branch); otherwise perform the requested erases, accumulating
`INSTALL_ERROR` on any failure while still attempting the remaining
erase; otherwise the session had nothing to do, which is itself
`INSTALL_ERROR`. Returns the final `status` and the ordered trace of
collaborator calls. -/
def dispatcher (req : OperationRequest) (env : DispatchEnv) : Int × List DAction :=
  match req.updatePackage with
  | some p => (env.install p, [DAction.installPkg p])
  | none =>
    if req.wipeData || req.wipeCache then
      let st1 : Int := if req.wipeData ∧ env.eraseData ≠ 0 then INSTALL_ERROR else INSTALL_SUCCESS
      let st2 : Int := if req.wipeCache ∧ env.eraseCache ≠ 0 then INSTALL_ERROR else st1
      (st2, (if req.wipeData then [DAction.eraseData] else []) ++
            (if req.wipeCache then [DAction.eraseCache] else []))
    else (INSTALL_ERROR, [])

/-- Logical key events fed to the main menu loop: both volume keys and
the arrow keys map to the same two move actions, `KEY_I5700_CENTER` is
select, and any other key falls through every branch. -/
inductive PWEvent
  | keyDown
  | keyUp
  | keySelect
  | keyOther
deriving DecidableEq, Repr

/-- Observable actions of the menu loop: a call to `finish_recovery`
and a run of the handler bound to a menu index. -/
inductive PWAction
  | finalize
  | runHandler (i : Nat)
deriving DecidableEq, Repr

/-- Number of items of the main menu of `prompt_and_wait`
(src/recovery.c:1253-1260). -/
def MAIN_MENU_ITEMS : Nat := 7

/-- `ITEM_REBOOT` (src/recovery.c:1245): the handler is `return`. -/
def ITEM_REBOOT : Nat := 0

/-- `ITEM_CONSOLE` (src/recovery.c:1251): clears `do_reboot`. -/
def ITEM_CONSOLE : Nat := 6

/-- Modelled from the spec: `ui_menu_select` lives in the UI layer
(`minui`), which is not part of this repository; per §4.4 a move event
adjusts the selection modulo the item count. -/
def ui_menu_select (n : Nat) (x : Int) : Int := x % (n : Int)

/-- State of one `prompt_and_wait` session (src/recovery.c:1230-1332):
the highlighted index, the pending `chosen_item` (`none` for `-1`), the
global `do_reboot` flag, whether the loop has returned (`ITEM_REBOOT`),
the world state the finalizer acts on, and the trace of finalizer and
handler invocations. -/
structure PWState where
  selected : Int
  chosen : Option Nat
  doReboot : Bool
  exited : Bool
  world : FinishState
  trace : List PWAction

/-- The `if (chosen_item >= 0)` block (src/recovery.c:1282-1330): for
`ITEM_REBOOT` the function returns; for every other item the bound
handler runs (its effect on the world abstracted as `env`), the console
item additionally clears `do_reboot`, and afterwards the menu restarts
with `selected = 0`, `chosen_item = -1` and `finish_recovery(NULL)` is
called again before the next key is read. -/
def pwHandlerStep (env : Nat → FinishState → FinishState) (s : PWState) : PWState :=
  match s.chosen with
  | none => s
  | some i =>
    if i = ITEM_REBOOT then { s with exited := true }
    else
      { s with
        selected := 0
        chosen := none
        doReboot := if i = ITEM_CONSOLE then false else s.doReboot
        world := finish_recovery none (env i s.world)
        trace := s.trace ++ [PWAction.runHandler i, PWAction.finalize] }

/-- Key handling of the main loop (src/recovery.c:1269-1280), with the
menu visible: down/up move the highlight through `ui_menu_select`,
select records `chosen_item = selected`. -/
def pwKeyStep (s : PWState) (e : PWEvent) : PWState :=
  match e with
  | PWEvent.keyDown => { s with selected := ui_menu_select MAIN_MENU_ITEMS (s.selected + 1) }
  | PWEvent.keyUp => { s with selected := ui_menu_select MAIN_MENU_ITEMS (s.selected - 1) }
  | PWEvent.keySelect => { s with chosen := some s.selected.toNat }
  | PWEvent.keyOther => s

/-- One iteration of the `for (;;)` loop of `prompt_and_wait`: wait for
a key, process it, then handle a chosen item if any. After the loop has
returned, further events are dead. -/
def pwStep (env : Nat → FinishState → FinishState) (s : PWState) (e : PWEvent) : PWState :=
  if s.exited then s else pwHandlerStep env (pwKeyStep s e)

/-- Entry into `prompt_and_wait` (src/recovery.c:1262-1267):
`ui_start_menu`, `selected = 0`, `chosen_item = -1`, then
`finish_recovery(NULL)` before the first key is read; `do_reboot` is
the global initialized to 1 (src/recovery.c:119). -/
def pwInit (w : FinishState) : PWState :=
  { selected := 0
    chosen := none
    doReboot := true
    exited := false
    world := finish_recovery none w
    trace := [PWAction.finalize] }

/-- The interactive menu loop `prompt_and_wait` run over a sequence of
key events. -/
def prompt_and_wait (env : Nat → FinishState → FinishState) (w : FinishState)
    (events : List PWEvent) : PWState :=
  events.foldl (pwStep env) (pwInit w)

/-- The spec's description (§4.2) of the rewritten `recovery` field:
the marker line followed by each resolved argument, one per line, each
newline-terminated. Stated as a separate definition so the resolver's
actual write can be compared against the spec's words. -/
def argLines : List String → List Char
  | [] => []
  | a :: as => a.data ++ '\n' :: argLines as

/-- The spec's rewritten recovery text: `"recovery\n"` then `argLines`. -/
def specRecoveryText (args : List String) : String :=
  ⟨"recovery\n".data ++ argLines args⟩

/-- Checks that every handler run recorded in a menu-loop trace is
immediately followed by a finalizer invocation. -/
def handlersFinalized : List PWAction → Bool
  | [] => true
  | PWAction.runHandler _ :: rest =>
    match rest with
    | PWAction.finalize :: _ => handlersFinalized rest
    | _ => false
  | PWAction.finalize :: rest => handlersFinalized rest

/-- A concrete resolver input for exercising the tier-1 path: one real
process argument, an erased control block, no command file. -/
def c1WitnessInput : GetArgsInput := ⟨["--wipe_cache"], ⟨"", "", ""⟩, none⟩

/-- A concrete session where `set_bootloader_message` is about to be
called with a pending wipe: empty process arguments and a control block
carrying `"recovery\n--wipe_data\n"`. -/
def c3Input : GetArgsInput := ⟨[], ⟨"", "", "recovery\n--wipe_data\n"⟩, none⟩

/-- A concrete resolver input combining real process arguments with a
well-formed non-empty control block and a present command file. -/
def c4WitnessInput : GetArgsInput :=
  ⟨["--wipe_cache"], ⟨"", "", "recovery\n--wipe_data\n"⟩, some ["--send_intent=x"]⟩

/-- The restart-safety scenario of the spec (§8): empty process
argument list, control block `recovery` field exactly
`"recovery\n--wipe_data\n"`. -/
def c5Input : GetArgsInput := ⟨[], ⟨"", "", "recovery\n--wipe_data\n"⟩, none⟩

/-- A request carrying only an update package. -/
def c6Req : OperationRequest := ⟨none, some "CACHE:ota.zip", false, false⟩

/-- A collaborator environment whose installer fails (status 7). -/
def c6Env : DispatchEnv := ⟨fun _ => 7, 0, 0⟩

/-- A request asking for both wipes and no package. -/
def c7Req : OperationRequest := ⟨none, none, true, true⟩

/-- A collaborator environment where erasing `DATA:` fails and erasing
`CACHE:` succeeds. -/
def c7Env : DispatchEnv := ⟨fun _ => 0, 1, 0⟩

/-- A control block whose `recovery` field starts with an empty line
followed by the marker: its first line is not `"recovery"`, yet
`strtok` skips the leading newline. The command file is present so a
fall-through would be observable. -/
def c8Input : GetArgsInput :=
  ⟨[], ⟨"", "", "\nrecovery\n--wipe_data\n"⟩, some ["--wipe_cache"]⟩

/-- A control block whose first token is not the marker, with a command
file present. -/
def c8WitnessInput : GetArgsInput := ⟨[], ⟨"", "", "oops\n"⟩, some ["--wipe_cache"]⟩

/-- A concrete handler environment with no world effects. -/
def c9Env : Nat → FinishState → FinishState := fun _ w => w

/-- A concrete initial world for running the menu loop. -/
def c9World : FinishState := ⟨none, [], 0, [], zeroBoot, none⟩

/-- The spec's menu scenario: move-down, move-down, select. -/
def c9Events : List PWEvent := [PWEvent.keyDown, PWEvent.keyDown, PWEvent.keySelect]

theorem length_newline_data : ("\n" : String).data.length = 1 := rfl

theorem length_marker_data : ("recovery\n" : String).data.length = 9 := rfl

/-- When the accumulated text plus every remaining argument line fits
below the buffer capacity, the `strlcat` loop of `get_args` appends the
argument lines without truncation. -/
theorem strlcat_fold (cap : Nat) (args : List String) :
    ∀ acc : String,
      acc.data.length + (argLines args).length ≤ cap - 1 →
      (args.foldl (fun r a => strlcat (strlcat r a cap) "\n" cap) acc).data
        = acc.data ++ argLines args := by
  induction args with
  | nil => intro acc _; simp [argLines]
  | cons a as ih =>
    intro acc h
    have hlen : (argLines (a :: as)).length = a.data.length + 1 + (argLines as).length := by
      simp [argLines]
      omega
    rw [hlen] at h
    have h1 : a.data.take (cap - 1 - acc.data.length) = a.data := by
      apply List.take_of_length_le
      omega
    have hd1 : (strlcat acc a cap).data = acc.data ++ a.data := by
      show acc.data ++ a.data.take (cap - 1 - acc.data.length) = acc.data ++ a.data
      rw [h1]
    have h2 : ("\n" : String).data.take (cap - 1 - (strlcat acc a cap).data.length)
        = ("\n" : String).data := by
      apply List.take_of_length_le
      rw [length_newline_data, hd1, List.length_append]
      omega
    have hd2 : (strlcat (strlcat acc a cap) "\n" cap).data
        = (acc.data ++ a.data) ++ ("\n" : String).data := by
      show (strlcat acc a cap).data ++
          ("\n" : String).data.take (cap - 1 - (strlcat acc a cap).data.length) = _
      rw [h2, hd1]
    rw [List.foldl_cons]
    rw [ih _ (by rw [hd2, List.length_append, List.length_append, length_newline_data]; omega)]
    rw [hd2]
    simp [argLines, List.append_assoc]

/-- With a big enough `command` buffer, the rewritten command field is
exactly `"boot-recovery"`. -/
theorem rewriteBoot_command_eq (boot : BootMessage) (args : List String)
    (cmdCap recCap : Nat) (hc : 14 ≤ cmdCap) :
    (rewriteBoot boot args cmdCap recCap).command = "boot-recovery" := by
  show strlcpy "boot-recovery" cmdCap = "boot-recovery"
  refine congrArg String.mk ?_
  show ("boot-recovery" : String).data.take (cmdCap - 1) = ("boot-recovery" : String).data
  apply List.take_of_length_le
  have h13 : ("boot-recovery" : String).data.length = 13 := rfl
  omega

/-- With a big enough `recovery` buffer, the rewritten recovery field is
exactly the spec's text: marker line then each argument
newline-terminated. -/
theorem rewriteBoot_recovery_eq (boot : BootMessage) (args : List String)
    (cmdCap recCap : Nat) (hr : (specRecoveryText args).length ≤ recCap - 1) :
    (rewriteBoot boot args cmdCap recCap).recovery = specRecoveryText args := by
  have hspec : (specRecoveryText args).length = 9 + (argLines args).length := by
    show (("recovery\n" : String).data ++ argLines args).length = _
    rw [List.length_append, length_marker_data]
  rw [hspec] at hr
  have hcpy : (strlcpy "recovery\n" recCap).data = ("recovery\n" : String).data := by
    show (("recovery\n" : String).data).take (recCap - 1) = ("recovery\n" : String).data
    apply List.take_of_length_le
    rw [length_marker_data]
    omega
  show (args.foldl (fun r a => strlcat (strlcat r a recCap) "\n" recCap)
      (strlcpy "recovery\n" recCap)) = specRecoveryText args
  have hdata : (args.foldl (fun r a => strlcat (strlcat r a recCap) "\n" recCap)
      (strlcpy "recovery\n" recCap)).data = ("recovery\n" : String).data ++ argLines args := by
    rw [strlcat_fold recCap args (strlcpy "recovery\n" recCap)
      (by rw [hcpy, length_marker_data]; omega), hcpy]
  exact congrArg String.mk hdata

/-- C1: for every resolved argument list — whether it came from the
process arguments, the control block, or the command file — `get_args`
finally rewrites the control block so that `command = "boot-recovery"`
and `recovery` is the marker line followed by each resolved argument,
one per line, each newline-terminated (provided the text fits the
buffer capacities, which live outside this repository). -/
theorem C1_get_args_always_rewrites_bcb (cmdCap recCap : Nat) (inp : GetArgsInput)
    (hc : 14 ≤ cmdCap)
    (hr : (specRecoveryText (get_args cmdCap recCap inp).args).length ≤ recCap - 1) :
    (get_args cmdCap recCap inp).written.command = "boot-recovery" ∧
    (get_args cmdCap recCap inp).written.recovery =
      specRecoveryText (get_args cmdCap recCap inp).args := by
  have hw : (get_args cmdCap recCap inp).written
      = rewriteBoot inp.boot (get_args cmdCap recCap inp).args cmdCap recCap := rfl
  rw [hw]
  exact ⟨rewriteBoot_command_eq inp.boot _ cmdCap recCap hc,
    rewriteBoot_recovery_eq inp.boot _ cmdCap recCap hr⟩

/-- Witness for C1 at a concrete tier-1 input and the real buffer
capacities (32 and 1024). -/
theorem C1_get_args_rewrites_witness :
    14 ≤ 32 ∧
    (specRecoveryText (get_args 32 1024 c1WitnessInput).args).length ≤ 1024 - 1 ∧
    ((get_args 32 1024 c1WitnessInput).written.command = "boot-recovery" ∧
     (get_args 32 1024 c1WitnessInput).written.recovery =
       specRecoveryText (get_args 32 1024 c1WitnessInput).args) :=
  ⟨by decide, by decide,
    C1_get_args_always_rewrites_bcb 32 1024 c1WitnessInput (by decide) (by decide)⟩

/-- C2: calling `finish_recovery` twice in succession with no intent
duplicates no bytes into the durable log — the second call appends
exactly the lines written to the volatile log after the first call
(`mid`; the claim's scenario is `mid = []`) — and the control block is
all-zero after either call. -/
theorem C2_finish_recovery_idempotent (s0 : FinishState) (mid : List String) :
    (finish_recovery none { finish_recovery none s0 with
        tmplog := (finish_recovery none s0).tmplog ++ mid }).durableLog
      = (finish_recovery none s0).durableLog ++ mid ∧
    (finish_recovery none s0).boot = zeroBoot ∧
    (finish_recovery none { finish_recovery none s0 with
        tmplog := (finish_recovery none s0).tmplog ++ mid }).boot = zeroBoot := by
  refine ⟨?_, rfl, rfl⟩
  show (s0.durableLog ++ s0.tmplog.drop s0.tmplogOffset) ++ (s0.tmplog ++ mid).drop s0.tmplog.length
      = (s0.durableLog ++ s0.tmplog.drop s0.tmplogOffset) ++ mid
  rw [List.drop_left]

/-- C3: the claim says a failed `set_bootloader_message` at the end of
`get_args` is treated as fatal and loudly reported. The code discards
the call's return value (src/recovery.c:214): the entire observable
result of `get_args` — resolved arguments, rewritten block, log lines —
is identical whether the persist succeeded or failed, and at the
concrete failing scenario the log contains no message about the write. -/
theorem C3_set_result_ignored :
    (∀ (cmdCap recCap : Nat) (inp : GetArgsInput) (a b : Bool),
      get_args_withSetResult cmdCap recCap inp a = get_args_withSetResult cmdCap recCap inp b) ∧
    (get_args_withSetResult 32 1024 c3Input false).logs = [LogMsg.gotArgsFromBoot] :=
  ⟨fun _ _ _ _ _ => rfl, by decide⟩

/-- C4: when real process arguments are present (and the control block
is non-empty and well-formed), `get_args` yields exactly the process
arguments; neither the control block nor the command file is consulted
as an argument source. -/
theorem C4_cli_args_take_precedence (cmdCap recCap : Nat) (inp : GetArgsInput)
    (h1 : inp.cliArgs ≠ [])
    (_h2 : (splitTok inp.boot.recovery).head? = some "recovery") :
    (get_args cmdCap recCap inp).args = inp.cliArgs ∧
    (get_args cmdCap recCap inp).fromBcb = false ∧
    (get_args cmdCap recCap inp).readCmdFile = false := by
  refine ⟨?_, ?_, ?_⟩ <;> simp [get_args, h1]

/-- Witness for C4: one real argument beats a well-formed control block
and a present command file. -/
theorem C4_precedence_witness :
    c4WitnessInput.cliArgs ≠ [] ∧
    (splitTok c4WitnessInput.boot.recovery).head? = some "recovery" ∧
    ((get_args 32 1024 c4WitnessInput).args = c4WitnessInput.cliArgs ∧
     (get_args 32 1024 c4WitnessInput).fromBcb = false ∧
     (get_args 32 1024 c4WitnessInput).readCmdFile = false) :=
  ⟨by decide, by decide,
    C4_cli_args_take_precedence 32 1024 c4WitnessInput (by decide) (by decide)⟩

/-- C5 counterexample: the claim asserts that resolving
`"recovery\n--wipe_data\n"` and parsing the options yields
`wipe_cache = false`. The option loop's `'w'` case executes
`wipe_data = wipe_cache = 1` (src/recovery.c:1372), so `wipe_cache` is
true. -/
theorem C5_counterexample_wipe_cache :
    (get_args 32 1024 c5Input).args = ["--wipe_data"] ∧
    (parseOptions (get_args 32 1024 c5Input).args).wipeData = true ∧
    (parseOptions (get_args 32 1024 c5Input).args).wipeCache = true := by decide

/-- C5 (amended): with `recovery` field `"recovery\n--wipe_data\n"` and
an empty process argument list, resolution yields `["--wipe_data"]`,
option parsing yields wipe_data true and wipe_cache true (the code's
`--wipe_data` implies wipe_cache) with no update package, and the
rewritten control block is byte-for-byte `"recovery\n--wipe_data\n"`
again (given the capacities fit, as they do for the real buffers). -/
theorem C5_restart_safety_amended (cmdCap recCap : Nat)
    (hc : 14 ≤ cmdCap) (hr : 22 ≤ recCap) :
    (get_args cmdCap recCap c5Input).args = ["--wipe_data"] ∧
    parseOptions (get_args cmdCap recCap c5Input).args =
      { sendIntent := none, updatePackage := none, wipeData := true, wipeCache := true } ∧
    (get_args cmdCap recCap c5Input).written.command = "boot-recovery" ∧
    (get_args cmdCap recCap c5Input).written.recovery = "recovery\n--wipe_data\n" := by
  have hargs : (get_args cmdCap recCap c5Input).args = ["--wipe_data"] := rfl
  have hw : (get_args cmdCap recCap c5Input).written
      = rewriteBoot c5Input.boot (get_args cmdCap recCap c5Input).args cmdCap recCap := rfl
  refine ⟨hargs, rfl, ?_, ?_⟩
  · rw [hw]
    exact rewriteBoot_command_eq c5Input.boot _ cmdCap recCap hc
  · rw [hw]
    have hfit : (specRecoveryText (get_args cmdCap recCap c5Input).args).length ≤ recCap - 1 := by
      rw [hargs]
      show 21 ≤ recCap - 1
      omega
    rw [rewriteBoot_recovery_eq c5Input.boot _ cmdCap recCap hfit, hargs]
    decide

/-- Witness for the amended C5 at the real buffer capacities. -/
theorem C5_restart_safety_witness :
    14 ≤ 32 ∧ 22 ≤ 1024 ∧
    ((get_args 32 1024 c5Input).args = ["--wipe_data"] ∧
     parseOptions (get_args 32 1024 c5Input).args =
       { sendIntent := none, updatePackage := none, wipeData := true, wipeCache := true } ∧
     (get_args 32 1024 c5Input).written.command = "boot-recovery" ∧
     (get_args 32 1024 c5Input).written.recovery = "recovery\n--wipe_data\n") :=
  ⟨by decide, by decide, C5_restart_safety_amended 32 1024 (by decide) (by decide)⟩

/-- C6: in an unattended session with an update package, the dispatcher
calls only the package installer; on a non-success result the outcome
is `InstallError` and no erase of any target is attempted. -/
theorem C6_install_failure_no_wipe (req : OperationRequest) (env : DispatchEnv) (p : String)
    (h1 : req.updatePackage = some p) (h2 : env.install p ≠ INSTALL_SUCCESS) :
    sessionOutcome (dispatcher req env).1 = SessionOutcome.installError ∧
    (dispatcher req env).2 = [DAction.installPkg p] := by
  constructor
  · simp [dispatcher, h1, sessionOutcome, h2]
  · simp [dispatcher, h1]

/-- Witness for C6: installer fails with status 7 on a pure
update-package request. -/
theorem C6_install_failure_witness :
    c6Req.updatePackage = some "CACHE:ota.zip" ∧
    c6Env.install "CACHE:ota.zip" ≠ INSTALL_SUCCESS ∧
    (sessionOutcome (dispatcher c6Req c6Env).1 = SessionOutcome.installError ∧
     (dispatcher c6Req c6Env).2 = [DAction.installPkg "CACHE:ota.zip"]) :=
  ⟨by decide, by decide,
    C6_install_failure_no_wipe c6Req c6Env "CACHE:ota.zip" (by decide) (by decide)⟩

/-- C7: in an unattended session with no package and both wipes
requested, both erases are attempted regardless of the data erase's
result, a data-erase failure makes the outcome `InstallError`, and the
outcome is `Success` exactly when both erases succeed. -/
theorem C7_wipe_failures_accumulate (req : OperationRequest) (env : DispatchEnv)
    (h1 : req.updatePackage = none) (h2 : req.wipeData = true) (h3 : req.wipeCache = true) :
    (dispatcher req env).2 = [DAction.eraseData, DAction.eraseCache] ∧
    (env.eraseData ≠ 0 → sessionOutcome (dispatcher req env).1 = SessionOutcome.installError) ∧
    (sessionOutcome (dispatcher req env).1 = SessionOutcome.success ↔
      env.eraseData = 0 ∧ env.eraseCache = 0) := by
  simp only [dispatcher, h1, h2, h3]
  refine ⟨by simp, ?_, ?_⟩ <;>
    · split_ifs <;>
        simp_all [sessionOutcome, INSTALL_SUCCESS, INSTALL_ERROR]

/-- Witness for C7: data erase fails, cache erase succeeds; the cache
erase is still attempted and the outcome is `InstallError`. -/
theorem C7_wipe_failures_witness :
    c7Req.updatePackage = none ∧ c7Req.wipeData = true ∧ c7Req.wipeCache = true ∧
    ((dispatcher c7Req c7Env).2 = [DAction.eraseData, DAction.eraseCache] ∧
     (c7Env.eraseData ≠ 0 →
       sessionOutcome (dispatcher c7Req c7Env).1 = SessionOutcome.installError) ∧
     (sessionOutcome (dispatcher c7Req c7Env).1 = SessionOutcome.success ↔
       c7Env.eraseData = 0 ∧ c7Env.eraseCache = 0)) :=
  ⟨by decide, by decide, by decide,
    C7_wipe_failures_accumulate c7Req c7Env (by decide) (by decide) (by decide)⟩

/-- C8 counterexample: the control block `"\nrecovery\n--wipe_data\n"`
is non-empty and its first line is `""`, not `"recovery"`; the claim
says tier 2 must contribute nothing and resolution must fall through to
the command file. But `strtok` skips the leading newline, so tier 2
accepts the marker, supplies `["--wipe_data"]`, and the command file is
never read. -/
theorem C8_counterexample_leading_newline :
    firstLine c8Input.boot.recovery ≠ "recovery" ∧
    c8Input.boot.recovery ≠ "" ∧
    (get_args 32 1024 c8Input).fromBcb = true ∧
    (get_args 32 1024 c8Input).args = ["--wipe_data"] ∧
    (get_args 32 1024 c8Input).readCmdFile = false := by decide

/-- C8 (amended): for every control block whose recovery field's first
`strtok` token — its first non-empty line, leading newlines skipped —
is not exactly `"recovery"`, tier 2 contributes no arguments and
resolution falls through to the tier-3 command file. -/
theorem C8_malformed_marker_amended (cmdCap recCap : Nat) (inp : GetArgsInput)
    (h1 : inp.cliArgs = [])
    (h2 : (splitTok inp.boot.recovery).head? ≠ some "recovery") :
    (get_args cmdCap recCap inp).fromBcb = false ∧
    (get_args cmdCap recCap inp).readCmdFile = inp.commandFile.isSome ∧
    (get_args cmdCap recCap inp).args = (inp.commandFile.getD []).take (MAX_ARGS - 1) := by
  have hb : bcbArgs inp.boot.recovery = none := by
    unfold bcbArgs
    cases hs : splitTok inp.boot.recovery with
    | nil => rfl
    | cons t rest =>
      rw [hs] at h2
      simp only [List.head?_cons, ne_eq, Option.some.injEq] at h2
      simp [h2]
  cases hc : inp.commandFile <;>
    refine ⟨?_, ?_, ?_⟩ <;> simp [get_args, h1, hb, hc]

/-- Witness for the amended C8: first token `"oops"`, command file
present; its lines become the arguments. -/
theorem C8_malformed_marker_witness :
    c8WitnessInput.cliArgs = [] ∧
    (splitTok c8WitnessInput.boot.recovery).head? ≠ some "recovery" ∧
    ((get_args 32 1024 c8WitnessInput).fromBcb = false ∧
     (get_args 32 1024 c8WitnessInput).readCmdFile = c8WitnessInput.commandFile.isSome ∧
     (get_args 32 1024 c8WitnessInput).args =
       (c8WitnessInput.commandFile.getD []).take (MAX_ARGS - 1)) :=
  ⟨by decide, by decide,
    C8_malformed_marker_amended 32 1024 c8WitnessInput (by decide) (by decide)⟩

/-- C9 counterexample: on the main menu, the events [move-down,
move-down, select] run the handler bound to index 2 exactly once (the
trace shows it, between two finalizer calls), but after the handler
returns the menu restart sets `selected = 0` (src/recovery.c:1321) —
`selected_index` is not 2 as the claim states. -/
theorem C9_counterexample_selected_reset :
    (prompt_and_wait c9Env c9World c9Events).trace
      = [PWAction.finalize, PWAction.runHandler 2, PWAction.finalize] ∧
    (prompt_and_wait c9Env c9World c9Events).selected ≠ 2 := by decide

/-- C9 (amended): for every handler environment and initial world, the
events [move-down, move-down, select] on the main menu run the handler
bound to index 2 exactly once, and after it returns the loop is back in
the browsing state (`chosen_item = -1`, not exited) with
`selected_index` reset to 0. -/
theorem C9_menu_reset_amended (env : Nat → FinishState → FinishState) (w : FinishState) :
    (prompt_and_wait env w c9Events).trace
      = [PWAction.finalize, PWAction.runHandler 2, PWAction.finalize] ∧
    (prompt_and_wait env w c9Events).selected = 0 ∧
    (prompt_and_wait env w c9Events).chosen = none ∧
    (prompt_and_wait env w c9Events).exited = false :=
  ⟨rfl, rfl, rfl, rfl⟩

theorem finish_recovery_boot (it : Option String) (s : FinishState) :
    (finish_recovery it s).boot = zeroBoot := by
  cases it <;> rfl

theorem pwKeyStep_world (s : PWState) (e : PWEvent) : (pwKeyStep s e).world = s.world := by
  cases e <;> rfl

theorem pwKeyStep_trace (s : PWState) (e : PWEvent) : (pwKeyStep s e).trace = s.trace := by
  cases e <;> rfl

theorem handlersFinalized_append (i : Nat) :
    ∀ t : List PWAction,
      handlersFinalized (t ++ [PWAction.runHandler i, PWAction.finalize])
        = handlersFinalized t := by
  intro t
  induction t with
  | nil => rfl
  | cons a rest ih =>
    cases a with
    | finalize => simpa [handlersFinalized] using ih
    | runHandler j =>
      cases rest with
      | nil => rfl
      | cons b rest2 =>
        cases b with
        | finalize => simpa [handlersFinalized] using ih
        | runHandler k => rfl

theorem pwHandlerStep_inv (env : Nat → FinishState → FinishState) (s : PWState)
    (h : s.world.boot = zeroBoot) (ht : handlersFinalized s.trace = true) :
    (pwHandlerStep env s).world.boot = zeroBoot ∧
    handlersFinalized (pwHandlerStep env s).trace = true := by
  cases hc : s.chosen with
  | none => exact ⟨by simp [pwHandlerStep, hc, h], by simp [pwHandlerStep, hc, ht]⟩
  | some i =>
    by_cases hi : i = ITEM_REBOOT
    · exact ⟨by simp [pwHandlerStep, hc, hi, h], by simp [pwHandlerStep, hc, hi, ht]⟩
    · exact ⟨by simp [pwHandlerStep, hc, hi, finish_recovery_boot],
        by simp [pwHandlerStep, hc, hi, handlersFinalized_append, ht]⟩

theorem pwStep_inv (env : Nat → FinishState → FinishState) (s : PWState) (e : PWEvent)
    (h : s.world.boot = zeroBoot) (ht : handlersFinalized s.trace = true) :
    (pwStep env s e).world.boot = zeroBoot ∧
    handlersFinalized (pwStep env s e).trace = true := by
  unfold pwStep
  split
  · exact ⟨h, ht⟩
  · exact pwHandlerStep_inv env _ (by rw [pwKeyStep_world]; exact h)
      (by rw [pwKeyStep_trace]; exact ht)

theorem pwRun_inv (env : Nat → FinishState → FinishState) (es : List PWEvent) :
    ∀ s : PWState, s.world.boot = zeroBoot → handlersFinalized s.trace = true →
      (es.foldl (pwStep env) s).world.boot = zeroBoot ∧
      handlersFinalized ((es.foldl (pwStep env) s).trace) = true := by
  induction es with
  | nil => intro s h ht; exact ⟨h, ht⟩
  | cons e es ih =>
    intro s h ht
    have hs := pwStep_inv env s e h ht
    exact ih _ hs.1 hs.2

/-- C10: across any sequence of key events, the finalizer has run when
`prompt_and_wait` is entered and again after every handler returns (in
the action trace, every handler run is immediately followed by a
finalizer call), so the control block is all-zero the entire time the
menu waits for input: a reboot at any such point boots the main system,
not recovery. -/
theorem C10_menu_loop_bcb_zero (env : Nat → FinishState → FinishState)
    (w : FinishState) (events : List PWEvent) :
    (prompt_and_wait env w events).world.boot = zeroBoot ∧
    handlersFinalized (prompt_and_wait env w events).trace = true :=
  pwRun_inv env events (pwInit w) (finish_recovery_boot none w) rfl

end Recovery
